import Mathlib

/-!
Verification of the promisified node-rdkafka wrapper (src/index.js).

The wrapper turns callback-based engine operations into single-fulfillment
promises.  We embed the wrapper's code shallowly: each wrapper method becomes
a Lean function describing the engine calls it issues synchronously and the
value it returns; the promise machinery is an explicit state type.  Parts of
the repository that `src/index.js` depends on but that are not present under
src/ (the native bindings, lib/ErrorCode, the promise library) are modelled
from the spec, each marked as such in its doc comment.
-/

/-- An error value surfaced through an engine callback: a numeric code and a
descriptive string, as in librdkafka delivery/consume reports. -/
structure KafkaError where
  code : Int
  errStr : String
deriving Repr, DecidableEq

/-- Message delivered by the consumer (src/index.js JSDoc, lines 7-25):
error code, error string, topic name, partition, payload bytes, optional key,
optional timestamp. -/
structure Message where
  err : Int
  errStr : String
  topicName : String
  numOfPartition : Int
  payload : List Nat
  key : Option String
  timestamp : Option Nat
deriving Repr, DecidableEq

/-- Modelled from the spec: the single-fulfillment result sink behind each
pending operation (the promise library used by src/index.js is not under
src/).  A sink is pending, resolved with a value, or rejected with an
error. -/
inductive PromiseState (ε α : Type) where
  | pending
  | resolved (a : α)
  | rejected (e : ε)
deriving Repr, DecidableEq

/-- Modelled from the spec: fulfilling a sink resolves or rejects it when it
is still pending; fulfilling an already-fulfilled sink is a no-op that leaves
the first outcome in place. -/
def PromiseState.fulfill {ε α : Type} (s : PromiseState ε α) (r : Except ε α) :
    PromiseState ε α :=
  match s with
  | .pending =>
    match r with
    | .ok a => .resolved a
    | .error e => .rejected e
  | .resolved a => .resolved a
  | .rejected e => .rejected e

/-- The callback KafkaConsumer.consume hands to the engine
(src/index.js lines 65-70): `(error, value) => { if (error) return
reject(error); return resolve(value); }` applied to the promise's sink. -/
def consumeCallback (error : Option KafkaError) (value : Message)
    (s : PromiseState KafkaError Message) : PromiseState KafkaError Message :=
  match error with
  | some e => s.fulfill (.error e)
  | none => s.fulfill (.ok value)

/-- The callback Producer.produce hands to the engine
(src/index.js lines 132-137): `(error, offset) => { if (error) return
reject(error); return resolve(offset); }` applied to the promise's sink. -/
def produceCallback (error : Option KafkaError) (offset : Int)
    (s : PromiseState KafkaError Int) : PromiseState KafkaError Int :=
  match error with
  | some e => s.fulfill (.error e)
  | none => s.fulfill (.ok offset)

/-- A TopicPartition value (src/index.js lines 156-173): topic and partition
fixed at creation, offset mutable, err engine-written. -/
structure TopicPartition where
  topic : String
  numOfPartition : Int
  offset : Int
  err : Int
deriving Repr, DecidableEq

/-- A call the wrapper issues synchronously to the engine (the native
bindings' interface as used by src/index.js, with the engine-side signature
of `send` taken from the spec since the bindings are not under src/). -/
inductive EngineCall where
  | subscribeCall (topics : List String)
  | pollNext
  | commitOffsets (refs : List TopicPartition)
  | closeConsumer
  | send (topic : String) (payload : String) (key : Option String)
  | closeProducer
deriving Repr, DecidableEq

/-- A JavaScript value returned by a wrapper method: `undefined`, a promise
(with its current sink state), or a plain value. -/
inductive RetVal (ε α : Type) where
  | undef
  | promise (s : PromiseState ε α)
  | value (a : α)
deriving Repr, DecidableEq

namespace KafkaConsumer

/-- KafkaConsumer.consume (src/index.js lines 63-72): issues one poll request
to the engine and returns a new promise, still pending until the engine
invokes the callback. -/
def consume : List EngineCall × RetVal KafkaError Message :=
  ([.pollNext], .promise .pending)

/-- KafkaConsumer.commit (src/index.js lines 81-83): calls
`this.impl.commit(commitValues)` synchronously and returns with no value
(`undefined`), registering no pending operation. -/
def commit (commitValues : List TopicPartition) :
    List EngineCall × RetVal KafkaError Unit :=
  ([.commitOffsets commitValues], .undef)

end KafkaConsumer

namespace Producer

/-- Producer.produce (src/index.js lines 130-139): the method declares the
two parameters `topic` and `payload`; it issues one
`this.impl.produce(topic, payload, callback)` call — no key is among the
arguments handed to the engine — and returns a new pending promise.  The
third argument models a key passed at the JavaScript call site, which the
two-parameter function never binds, so it does not occur in the body. -/
def produce (topic : String) (payload : String) (_callerKey : Option String) :
    List EngineCall × RetVal KafkaError Int :=
  ([.send topic payload none], .promise .pending)

/-- Modelled from the spec: the engine interface
`send(handle, topic, payload, key?, callback)` (spec section 6); a produce
layer faithful to the spec's words hands topic, payload and the supplied key
to this call. -/
def specSendCall (topic : String) (payload : String) (key : Option String) :
    EngineCall :=
  .send topic payload key

end Producer

/-- The error taxonomy of the facade layer (spec section 7): synchronous
validation errors, single-flight violations, lifecycle errors, broker-side
transient and fatal conditions, and shutdown. -/
inductive FacadeError where
  | invalidArgument
  | operationInProgress
  | illegalState
  | transient (code : Int)
  | fatal (code : Int)
  | clientClosed
deriving Repr, DecidableEq

/-- Whether a topic list contains a duplicate entry. -/
def hasDuplicate : List String → Bool
  | [] => false
  | t :: ts => ts.contains t || hasDuplicate ts

/-- Modelled from the spec: the consumer facade's state visible to this
layer (the native bindings that hold it are not under src/): the current
subscription and whether a consume request is outstanding at the engine. -/
structure ConsumerState where
  subscription : List String
  consumeOutstanding : Bool
deriving Repr, DecidableEq

namespace ConsumerState

/-- Modelled from the spec: subscribe validation (spec section 4.4; the
native subscribe called at src/index.js line 53 is not under src/).  An
empty or duplicate-containing topic list fails with InvalidArgument before
any engine interaction, leaving the prior subscription untouched; otherwise
the subscription is replaced by the new set. -/
def subscribe (s : ConsumerState) (topics : List String) :
    ConsumerState × Except FacadeError Unit :=
  if topics.isEmpty || hasDuplicate topics then
    (s, .error .invalidArgument)
  else
    ({ s with subscription := topics }, .ok ())

/-- Modelled from the spec: the single-flight consume-next discipline (spec
sections 4.4 and 6; the native poll called at src/index.js line 65 is
single-outstanding and not under src/).  A call while a prior consume is
still outstanding fails immediately with OperationInProgress and changes
nothing; otherwise the request is issued and marked outstanding. -/
def consumeNext (s : ConsumerState) :
    ConsumerState × Except FacadeError (PromiseState KafkaError Message) :=
  if s.consumeOutstanding then
    (s, .error .operationInProgress)
  else
    ({ s with consumeOutstanding := true }, .ok .pending)

end ConsumerState

/-- The kind of a pending operation tracked by the registry (spec section
3). -/
inductive OpKind where
  | consumeOp
  | commitOp
  | produceOp
  | subscribeOp
  | closeOp
deriving Repr, DecidableEq

/-- Modelled from the spec: the pending-operation registry (spec section
4.3; realised by the promise library and the native completion dispatch,
neither under src/): the in-flight sinks, tagged by kind, and a closed
flag. -/
structure Registry where
  closed : Bool
  ops : List (OpKind × PromiseState FacadeError Int)
deriving Repr, DecidableEq

/-- Modelled from the spec: teardownAll fails every still-pending sink with
ClientClosed (already-fulfilled sinks keep their outcome) and marks the
registry closed. -/
def Registry.teardownAll (r : Registry) : Registry :=
  { closed := true
    ops := r.ops.map (fun p => (p.1, p.2.fulfill (.error .clientClosed))) }

/-- Modelled from the spec: the bounded shutdown wait of close (spec section
4.4; the blocking native close called at src/index.js line 103 is not under
src/).  Each step of remaining budget waits for the engine's shutdown
completion; if it arrives the sequence finishes, and when the budget is
exhausted teardown is forced.  Either way the registry is torn down, so
close terminates for every budget and every engine behaviour. -/
def closeLoop : Nat → Option Nat → Registry → Registry
  | 0, _, r => r.teardownAll
  | Nat.succ _, some 0, r => r.teardownAll
  | Nat.succ n, some (Nat.succ m), r => closeLoop n (some m) r
  | Nat.succ n, none, r => closeLoop n none r

/-- Modelled from the spec: KafkaConsumer.close with a time budget;
`engineDoneAfter = none` means the engine never responds. -/
def consumerClose (budget : Nat) (engineDoneAfter : Option Nat)
    (r : Registry) : Registry :=
  closeLoop budget engineDoneAfter r

/-- An entry of the error-code table: numeric code, symbolic name, human
message. -/
structure ErrorEntry where
  code : Int
  name : String
  message : String
deriving Repr, DecidableEq

namespace ErrorCode

/-- Modelled from the spec: the error-code table of lib/ErrorCode, required
at src/index.js line 3 but not present under src/.  Codes are unique and
zero is the designated success entry (spec sections 3 and 4.1); the listed
broker codes follow librdkafka's published table. -/
def table : List ErrorEntry :=
  [ ⟨0, "ERR_NO_ERROR", "Success"⟩,
    ⟨1, "ERR_OFFSET_OUT_OF_RANGE", "Broker: Offset out of range"⟩,
    ⟨2, "ERR_INVALID_MSG", "Broker: Invalid message"⟩,
    ⟨3, "ERR_UNKNOWN_TOPIC_OR_PART", "Broker: Unknown topic or partition"⟩,
    ⟨5, "ERR_LEADER_NOT_AVAILABLE", "Broker: Leader not available"⟩,
    ⟨7, "ERR_REQUEST_TIMED_OUT", "Broker: Request timed out"⟩ ]

/-- Modelled from the spec: the defined fallback entry returned for a code
absent from the table (lookup never fails at runtime). -/
def fallbackEntry : ErrorEntry :=
  ⟨-1, "ERR_UNKNOWN", "Unknown broker error"⟩

/-- Modelled from the spec: `lookup(code) -> {name, message}` — a pure,
total table lookup returning the fallback entry for unknown codes. -/
def lookup (code : Int) : ErrorEntry :=
  match table.find? (fun e => e.code == code) with
  | some e => e
  | none => fallbackEntry

end ErrorCode

/-- KafkaConsumer.commit as a value transformer (src/index.js lines 81-83):
the body is the bare statement `this.impl.commit(commitValues);`, so a value
returned by the engine is discarded and the method returns `undefined`
(modelled as `none`), while an exception thrown by the engine propagates. -/
def consumerCommitReturn (engineResult : Except KafkaError Int) :
    Except KafkaError (Option Int) :=
  match engineResult with
  | .error e => .error e
  | .ok _ => .ok none

/-- KafkaConsumer.close as a value transformer (src/index.js lines 102-104):
the body is the bare statement `this.impl.close();`, so the engine's return
value is discarded and the method returns `undefined`, while an exception
propagates. -/
def consumerCloseReturn (engineResult : Except KafkaError Int) :
    Except KafkaError (Option Int) :=
  match engineResult with
  | .error e => .error e
  | .ok _ => .ok none

/-- Producer.close as a value transformer (src/index.js lines 148-150): the
body is `return this.impl.close();`, so the engine's return value is passed
through to the caller. -/
def producerCloseReturn (engineResult : Except KafkaError Int) :
    Except KafkaError (Option Int) :=
  match engineResult with
  | .error e => .error e
  | .ok v => .ok (some v)

/-! Claim theorems. -/

/-- Every run of the bounded close wait ends in registry teardown: whether
the engine completes the shutdown sequence within the budget or never
responds, the registry is torn down when the loop exits. -/
theorem closeLoop_eq_teardownAll (budget : Nat) (resp : Option Nat)
    (r : Registry) : closeLoop budget resp r = r.teardownAll := by
  induction budget generalizing resp with
  | zero => rfl
  | succ n ih =>
    match resp with
    | none => exact ih none
    | some 0 => rfl
    | some (Nat.succ m) => exact ih (some m)

/-- C1: a produce call returns a promise that is pending until the engine
reports a delivery outcome; an engine callback with no error resolves it
with the engine-assigned offset, and an engine callback carrying a delivery
error rejects it with that error. -/
theorem produce_promise_delivery (topic payload : String)
    (key : Option String) (e : KafkaError) (off : Int) :
    (Producer.produce topic payload key).2 = .promise .pending ∧
    produceCallback none off .pending = .resolved off ∧
    produceCallback (some e) off .pending = .rejected e :=
  ⟨rfl, rfl, rfl⟩

/-- C2: one engine completion fulfills a pending operation's sink exactly
once — the sink leaves the pending state, becoming either resolved or
rejected but never both — and a second fulfillment attempt on the same sink
is a no-op that leaves the first outcome in place, for both the consume and
the produce callbacks. -/
theorem pending_op_fulfilled_exactly_once (e1 e2 : Option KafkaError)
    (v1 v2 : Message) (o1 o2 : Option KafkaError) (f1 f2 : Int) :
    consumeCallback e1 v1 .pending ≠ .pending ∧
    consumeCallback e2 v2 (consumeCallback e1 v1 .pending) =
      consumeCallback e1 v1 .pending ∧
    produceCallback o1 f1 .pending ≠ .pending ∧
    produceCallback o2 f2 (produceCallback o1 f1 .pending) =
      produceCallback o1 f1 .pending := by
  refine ⟨?_, ?_, ?_, ?_⟩ <;>
    cases e1 <;> cases e2 <;> cases o1 <;> cases o2 <;>
    simp [consumeCallback, produceCallback, PromiseState.fulfill]

/-- C3: at most one consume-next operation may be outstanding per consumer
instance: a consumeNext call made while a prior one is still outstanding
fails immediately with OperationInProgress and leaves the facade state — and
with it the first call's pending operation — unchanged. -/
theorem consume_single_flight (s : ConsumerState)
    (h : s.consumeOutstanding = true) :
    (s.consumeNext).1 = s ∧
    (s.consumeNext).2 = .error .operationInProgress := by
  constructor <;> simp [ConsumerState.consumeNext, h]

/-- Witness for C3 at a concrete facade state with a consume outstanding. -/
theorem consume_single_flight_witness :
    ((ConsumerState.mk ["orders"] true).consumeNext).1 =
      ConsumerState.mk ["orders"] true ∧
    ((ConsumerState.mk ["orders"] true).consumeNext).2 =
      .error .operationInProgress :=
  consume_single_flight (ConsumerState.mk ["orders"] true) rfl

/-- C4: a consume call returns a promise that is pending until the engine
completion arrives; a completion with no error resolves it with the
delivered message, and a completion carrying an error rejects it with
exactly that error — the callback's only effect is on that promise, so the
error is neither routed elsewhere nor dropped. -/
theorem consume_promise_delivery (e : KafkaError) (v : Message) :
    KafkaConsumer.consume.2 = .promise .pending ∧
    consumeCallback none v .pending = .resolved v ∧
    consumeCallback (some e) v .pending = .rejected e :=
  ⟨rfl, rfl, rfl⟩

/-- C5: subscribing with an empty or duplicate-containing topic list fails
synchronously with InvalidArgument and leaves the prior subscription state
unchanged. -/
theorem subscribe_invalid_rejected (s : ConsumerState)
    (topics : List String)
    (h : topics = [] ∨ hasDuplicate topics = true) :
    (s.subscribe topics).1 = s ∧
    (s.subscribe topics).2 = .error .invalidArgument := by
  rcases h with h | h
  · subst h
    constructor <;> simp [ConsumerState.subscribe]
  · constructor <;> simp [ConsumerState.subscribe, h]

/-- Witness for C5: an empty list and a duplicate-containing list both
fail, leaving the prior subscription in place. -/
theorem subscribe_invalid_rejected_witness :
    ((ConsumerState.mk ["prior"] false).subscribe []).1 =
      ConsumerState.mk ["prior"] false ∧
    ((ConsumerState.mk ["prior"] false).subscribe []).2 =
      .error .invalidArgument ∧
    ((ConsumerState.mk ["prior"] false).subscribe ["x", "x"]).2 =
      .error .invalidArgument :=
  ⟨(subscribe_invalid_rejected (ConsumerState.mk ["prior"] false) []
      (Or.inl rfl)).1,
   (subscribe_invalid_rejected (ConsumerState.mk ["prior"] false) []
      (Or.inl rfl)).2,
   (subscribe_invalid_rejected (ConsumerState.mk ["prior"] false) ["x", "x"]
      (Or.inr (by decide))).2⟩

/-- C6: commit is fire-and-forget — it issues the offset-commit request to
the engine synchronously, returns undefined rather than a promise, and so
never suspends the caller on delivery confirmation. -/
theorem commit_fire_and_forget (refs : List TopicPartition) :
    (KafkaConsumer.commit refs).1 = [.commitOffsets refs] ∧
    (KafkaConsumer.commit refs).2 = .undef ∧
    ∀ p : PromiseState KafkaError Unit,
      (KafkaConsumer.commit refs).2 ≠ .promise p :=
  ⟨rfl, rfl, fun _ h => RetVal.noConfusion h⟩

/-- C7: closing the consumer while operations are pending rejects every
still-pending operation with ClientClosed and marks the registry closed,
and the bounded close wait reaches this teardown for every budget and every
engine behaviour, including an engine that never responds. -/
theorem close_rejects_pending (budget : Nat) (resp : Option Nat)
    (r : Registry) :
    (consumerClose budget resp r).closed = true ∧
    ∀ k s, (k, s) ∈ r.ops → s = PromiseState.pending →
      (k, PromiseState.rejected FacadeError.clientClosed) ∈
        (consumerClose budget resp r).ops := by
  unfold consumerClose
  rw [closeLoop_eq_teardownAll]
  refine ⟨rfl, ?_⟩
  intro k s hmem hs
  subst hs
  have him : (k, PromiseState.rejected FacadeError.clientClosed) =
      (fun p : OpKind × PromiseState FacadeError Int =>
        (p.1, p.2.fulfill (.error .clientClosed)))
        (k, PromiseState.pending) := rfl
  rw [him]
  exact List.mem_map_of_mem _ hmem

/-- Witness for C7: a close with budget 3 and an engine that never
responds, while one commit and one consumeNext are pending, rejects both
with ClientClosed. -/
theorem close_rejects_pending_witness :
    (consumerClose 3 none
      (Registry.mk false
        [(.commitOp, .pending), (.consumeOp, .pending)])).closed = true ∧
    (OpKind.commitOp, PromiseState.rejected FacadeError.clientClosed) ∈
      (consumerClose 3 none
        (Registry.mk false
          [(.commitOp, .pending), (.consumeOp, .pending)])).ops ∧
    (OpKind.consumeOp, PromiseState.rejected FacadeError.clientClosed) ∈
      (consumerClose 3 none
        (Registry.mk false
          [(.commitOp, .pending), (.consumeOp, .pending)])).ops :=
  ⟨(close_rejects_pending 3 none
      (Registry.mk false [(.commitOp, .pending), (.consumeOp, .pending)])).1,
   (close_rejects_pending 3 none
      (Registry.mk false [(.commitOp, .pending), (.consumeOp, .pending)])).2
      .commitOp .pending (by decide) rfl,
   (close_rejects_pending 3 none
      (Registry.mk false [(.commitOp, .pending), (.consumeOp, .pending)])).2
      .consumeOp .pending (by decide) rfl⟩

/-- C8: the error-taxonomy lookup maps code 0 to the designated success
entry and maps every code absent from the table to the defined fallback
entry; as a pure total function it has no side effects and returns the same
name/message pair on every call. -/
theorem errorcode_lookup_contract :
    ErrorCode.lookup 0 = ⟨0, "ERR_NO_ERROR", "Success"⟩ ∧
    ∀ c : Int, (∀ e ∈ ErrorCode.table, e.code ≠ c) →
      ErrorCode.lookup c = ErrorCode.fallbackEntry := by
  refine ⟨by decide, ?_⟩
  intro c h
  unfold ErrorCode.lookup
  have hnone : ErrorCode.table.find? (fun e => e.code == c) = none := by
    rw [List.find?_eq_none]
    intro e he
    simpa using h e he
  rw [hnone]

/-- Witness for C8 at the unknown code 9999. -/
theorem errorcode_lookup_contract_witness :
    ErrorCode.lookup 0 = ⟨0, "ERR_NO_ERROR", "Success"⟩ ∧
    ErrorCode.lookup 9999 = ErrorCode.fallbackEntry :=
  ⟨errorcode_lookup_contract.1,
   errorcode_lookup_contract.2 9999 (by decide)⟩

/-- C9 counterexample: calling produce with topic "orders", payload
"payload" and key "k" hands the engine send(topic, payload, no key) — the
spec-side send call carrying the supplied key is not among the calls
issued, so the key is dropped at this layer, contrary to the claim. -/
theorem produce_key_dropped_counterexample :
    (Producer.produce "orders" "payload" (some "k")).1 =
      [EngineCall.send "orders" "payload" none] ∧
    Producer.specSendCall "orders" "payload" (some "k") ∉
      (Producer.produce "orders" "payload" (some "k")).1 := by
  refine ⟨rfl, ?_⟩
  decide

/-- C9 amended: produce declares only topic and payload; a key supplied at
the call site is ignored at this layer — the engine's send is always
invoked with the topic, the payload, and no key, identically to a call
without a key. -/
theorem produce_ignores_key (topic payload : String) (key : Option String) :
    (Producer.produce topic payload key).1 =
      [EngineCall.send topic payload none] ∧
    Producer.produce topic payload key =
      Producer.produce topic payload none :=
  ⟨rfl, rfl⟩

/-- C10: consumer commit and consumer close discard the engine's return
value and return undefined, signalling failure only by propagating a thrown
exception, whereas producer close passes the engine's return value through
to the caller. -/
theorem wrapper_return_values (v : Int) (e : KafkaError) :
    consumerCommitReturn (.ok v) = .ok none ∧
    consumerCloseReturn (.ok v) = .ok none ∧
    consumerCommitReturn (.error e) = .error e ∧
    consumerCloseReturn (.error e) = .error e ∧
    producerCloseReturn (.ok v) = .ok (some v) ∧
    producerCloseReturn (.error e) = .error e ∧
    consumerCloseReturn (.ok v) ≠ producerCloseReturn (.ok v) := by
  refine ⟨rfl, rfl, rfl, rfl, rfl, rfl, ?_⟩
  simp [consumerCloseReturn, producerCloseReturn]
